import Mathlib

/-!
Verification of the renglo/system bootstrap scripts.

This file embeds the pure decision logic of the repository in Lean:

* `main.py` — `setup_aws_region` and `setup_aws_credentials`;
* `lambda_handler.py` — `lambda_handler`;
* `test_app.py` — the five smoke-test checks and the `main` harness.

Environment variables are modelled as `Option String` (a missing variable
is `none`), and Python truthiness of strings is made explicit.  Calls into
external libraries (the config loader, `create_app`, controller
construction, the test client) are modelled as oracle outcomes supplied in
an environment record: `Except.error msg` stands for the call raising an
exception with message `msg`.
-/

/-- Python truthiness of an optional string: `None` and the empty string
are falsy, every other string is truthy. -/
def truthy : Option String → Bool
  | none => false
  | some s => s != ""

/-- Python `a or b` on optional strings: yields `a` when `a` is truthy,
otherwise `b`. -/
def pyOr (a b : Option String) : Option String :=
  if truthy a then a else b

/-- The state `setup_aws_region` reads and writes: the two environment
variables it consults, and the `AWS_REGION` constant of the optional
`env_config` module (`none` models the `ImportError`/`AttributeError`
case where the module or the constant is missing). -/
structure RegionEnv where
  awsDefaultRegion : Option String
  awsRegion : Option String
  envConfigRegion : Option String
deriving DecidableEq, Repr

/-- Embedding of `setup_aws_region` from `main.py`: resolve the region
from `AWS_DEFAULT_REGION or AWS_REGION`; when that is falsy, fall back to
`env_config.AWS_REGION` and publish it into `AWS_DEFAULT_REGION`, and when
the import fails, default to `us-east-1` and publish that.  Returns the
resolved region together with the updated environment. -/
def setup_aws_region (s : RegionEnv) : String × RegionEnv :=
  let aws_region := pyOr s.awsDefaultRegion s.awsRegion
  if truthy aws_region then
    (aws_region.getD "", s)
  else
    match s.envConfigRegion with
    | some r => (r, { s with awsDefaultRegion := some r })
    | none => ("us-east-1", { s with awsDefaultRegion := some "us-east-1" })

/-- C2 counterexample: with `AWS_DEFAULT_REGION` unset and `AWS_REGION`
set to `eu-west-1`, `setup_aws_region` returns `eu-west-1` but leaves
`AWS_DEFAULT_REGION` unset, so the resolved value is not published back
into the environment in this branch. -/
theorem setup_aws_region_not_published_from_aws_region :
    ¬ ((setup_aws_region ⟨none, some "eu-west-1", none⟩).2.awsDefaultRegion =
      some (setup_aws_region ⟨none, some "eu-west-1", none⟩).1) := by
  decide

/-- C2 (amended): `setup_aws_region` publishes the resolved value into
`AWS_DEFAULT_REGION` exactly in the two fallback branches: when the
environment lookup `AWS_DEFAULT_REGION or AWS_REGION` is falsy, the
returned environment stores the result in `AWS_DEFAULT_REGION`; when the
lookup is truthy the environment is returned unchanged (so a region found
only in `AWS_REGION` is not copied into `AWS_DEFAULT_REGION`). -/
theorem setup_aws_region_publish_characterisation (s : RegionEnv) :
    (setup_aws_region s).2 =
      if truthy (pyOr s.awsDefaultRegion s.awsRegion) then s
      else { s with awsDefaultRegion := some (setup_aws_region s).1 } := by
  unfold setup_aws_region
  by_cases h : truthy (pyOr s.awsDefaultRegion s.awsRegion)
  · simp [h]
  · simp [h]
    cases s.envConfigRegion <;> simp

/-- C3: when `AWS_DEFAULT_REGION` is a non-empty string `v`,
`setup_aws_region` returns exactly `v` and leaves the environment
unchanged, whatever `AWS_REGION` and the `env_config` constant hold — in
particular the config-file fallback is never consulted, since the result
and the state are the same for every value of `envConfigRegion`. -/
theorem setup_aws_region_env_verbatim (v : String) (r c : Option String)
    (h : v ≠ "") :
    setup_aws_region ⟨some v, r, c⟩ = (v, ⟨some v, r, c⟩) := by
  unfold setup_aws_region pyOr truthy
  simp [h]

/-- C3 witness: a concrete non-empty `AWS_DEFAULT_REGION` is returned
verbatim with the environment untouched, even though a different
config-file value is present. -/
theorem setup_aws_region_env_verbatim_witness :
    setup_aws_region ⟨some "us-west-2", none, some "eu-central-1"⟩ =
      ("us-west-2", ⟨some "us-west-2", none, some "eu-central-1"⟩) :=
  setup_aws_region_env_verbatim "us-west-2" none (some "eu-central-1") (by decide)

/-- C4: with neither `AWS_DEFAULT_REGION` nor `AWS_REGION` set and no
`env_config` constant available, `setup_aws_region` returns the
hard-coded default `us-east-1`, publishes it into `AWS_DEFAULT_REGION`,
and (being a total function) raises no exception: the import failure is
swallowed. -/
theorem setup_aws_region_default :
    setup_aws_region ⟨none, none, none⟩ =
      ("us-east-1", ⟨some "us-east-1", none, none⟩) := by
  decide

/-- C9: region resolution is idempotent: running `setup_aws_region` a
second time on the environment produced by a first run returns the same
region and leaves the environment exactly as the first run left it. -/
theorem setup_aws_region_idempotent (s : RegionEnv) :
    setup_aws_region (setup_aws_region s).2 =
      ((setup_aws_region s).1, (setup_aws_region s).2) := by
  unfold setup_aws_region
  by_cases h : truthy (pyOr s.awsDefaultRegion s.awsRegion)
  · simp [h]
  · have hb : truthy s.awsRegion = false := by
      by_cases ha : truthy s.awsDefaultRegion
      · simp [pyOr, ha] at h
      · simpa [pyOr, ha] using h
    simp [h]
    cases hc : s.envConfigRegion with
    | none => simp [pyOr, truthy, hc]
    | some r =>
        by_cases hr : r = ""
        · cases ha : s.awsRegion with
          | none => simp [pyOr, truthy, hc, hr, ha]
          | some w =>
              have hw : w = "" := by
                simpa [truthy, ha] using hb
              simp [pyOr, truthy, hc, hr, ha, hw]
        · simp [pyOr, truthy, hc, hr]

/-- Environment probed by `setup_aws_credentials` in `main.py`: the three
credential environment variables and whether `~/.aws/credentials`
exists. -/
structure CredEnv where
  awsProfile : Option String
  awsAccessKeyId : Option String
  awsSecretAccessKey : Option String
  credentialsFileExists : Bool
deriving DecidableEq, Repr

/-- Severity of a log record emitted during credential setup. -/
inductive LogLevel where
  | info
  | warning
deriving DecidableEq, Repr

/-- Embedding of `setup_aws_credentials` from `main.py`: accept a truthy
`AWS_PROFILE`, else a truthy `AWS_ACCESS_KEY_ID`/`AWS_SECRET_ACCESS_KEY`
pair, else an existing `~/.aws/credentials` file; otherwise log warnings
and return `False`.  Returns the boolean result together with the log
records emitted. -/
def setup_aws_credentials (env : CredEnv) : Bool × List (LogLevel × String) :=
  if truthy env.awsProfile then
    (true, [(.info, "Using AWS Profile: " ++ env.awsProfile.getD "")])
  else if truthy env.awsAccessKeyId && truthy env.awsSecretAccessKey then
    (true, [(.info, "Using AWS credentials from environment variables")])
  else if env.credentialsFileExists then
    (true, [(.info, "AWS credentials file found at ~/.aws/credentials"),
            (.info, "Using default profile (set AWS_PROFILE to use a different profile)")])
  else
    (false, [(.warning, "No AWS credentials found!"),
             (.warning, "AWS services (S3, DynamoDB, Cognito) will fail."),
             (.warning, "To fix, either:"),
             (.warning, "1. Run: aws configure"),
             (.warning, "2. Set: export AWS_PROFILE=your_profile"),
             (.warning, "3. Set: AWS_ACCESS_KEY_ID and AWS_SECRET_ACCESS_KEY")])

/-- C7: `setup_aws_credentials` is total (never raises), succeeds exactly
when a truthy profile, a truthy access-key/secret pair, or a credentials
file is present — in that checking order, reflected by the short-circuit
disjunction — and emits a warning record exactly when it returns
`False`. -/
theorem setup_aws_credentials_spec (env : CredEnv) :
    (setup_aws_credentials env).1 =
        (truthy env.awsProfile ||
          (truthy env.awsAccessKeyId && truthy env.awsSecretAccessKey) ||
          env.credentialsFileExists) ∧
      ((setup_aws_credentials env).2.any (fun l => l.1 == LogLevel.warning)) =
        !(setup_aws_credentials env).1 := by
  unfold setup_aws_credentials
  by_cases h1 : truthy env.awsProfile
  · simp [h1]
  · by_cases h2 : truthy env.awsAccessKeyId && truthy env.awsSecretAccessKey
    · simp [h1, h2]
    · by_cases h3 : env.credentialsFileExists
      · simp [h1, h2, h3]
      · simp [h1, h2, h3]

/-- Keys `lambda_handler` reads from the event via `.get`. -/
inductive EventKey where
  | httpMethod
  | path
  | body
deriving DecidableEq, Repr

/-- A Lambda event: either a mapping (with the three fields the handler
reads, each possibly absent) or a malformed value on which attribute
access `.get` raises an exception carrying `msg`. -/
inductive LambdaEvent where
  | mapping (httpMethod path body : Option String)
  | malformed (msg : String)
deriving DecidableEq, Repr

/-- `event.get(key, default)`: on a mapping, the stored value or the
default; on a malformed event, the raised exception. -/
def LambdaEvent.get : LambdaEvent → EventKey → String → Except String String
  | .mapping m _ _, .httpMethod, d => .ok (m.getD d)
  | .mapping _ p _, .path, d => .ok (p.getD d)
  | .mapping _ _ b, .body, d => .ok (b.getD d)
  | .malformed msg, _, _ => .error msg

/-- The JSON body of a handler response: the success payload with
`message`, `path` and `method` fields, or the error payload with an
`error` field. -/
inductive RespBody where
  | successBody (message path method : String)
  | errorBody (error : String)
deriving DecidableEq, Repr

/-- The `error` field of a response body, when present. -/
def RespBody.errorField : RespBody → Option String
  | .successBody _ _ _ => none
  | .errorBody e => some e

/-- The `path` field of a response body, when present. -/
def RespBody.pathField : RespBody → Option String
  | .successBody _ p _ => some p
  | .errorBody _ => none

/-- An API Gateway response as built by `lambda_handler`. -/
structure LambdaResponse where
  statusCode : Nat
  headers : List (String × String)
  body : RespBody
deriving DecidableEq, Repr

/-- The `try` block of `lambda_handler`: read `httpMethod`, `path` and
`body` from the event (with the defaults of the source), then log the
request (`logInfo` is the outcome of the `app.logger.info` call, which
may itself raise).  Any raised exception surfaces as `Except.error`. -/
def handlerBody (logInfo : Except String Unit) (event : LambdaEvent) :
    Except String (String × String × String) := do
  let http_method ← event.get .httpMethod "GET"
  let path ← event.get .path "/"
  let body ← event.get .body "\x7b\x7d"
  logInfo
  pure (http_method, path, body)

/-- Embedding of `lambda_handler` from `lambda_handler.py`: on success a
200 response echoing path and method; any exception of the body is caught
and turned into a 500 response whose JSON body carries the exception
message under `error`. -/
def lambda_handler (logInfo : Except String Unit) (event : LambdaEvent) :
    LambdaResponse :=
  match handlerBody logInfo event with
  | .ok (http_method, path, _body) =>
      ⟨200,
        [("Content-Type", "application/json"),
         ("Access-Control-Allow-Origin", "*")],
        .successBody "Success" path http_method⟩
  | .error e =>
      ⟨500, [("Content-Type", "application/json")], .errorBody e⟩

/-- C1: whenever the handler body raises — for any event and any logger
outcome whose processing fails with message `e`, in particular every
malformed event — `lambda_handler` returns (rather than propagates) a
response with `statusCode = 500` whose JSON body carries the exception
message under the `error` key. -/
theorem lambda_handler_exception_to_500 (logInfo : Except String Unit)
    (event : LambdaEvent) (e : String)
    (h : handlerBody logInfo event = .error e) :
    (lambda_handler logInfo event).statusCode = 500 ∧
      (lambda_handler logInfo event).body.errorField = some e := by
  simp [lambda_handler, h, RespBody.errorField]

/-- C1 witness: a malformed (non-mapping) event makes the body raise, and
the handler converts that exception into the 500 error response. -/
theorem lambda_handler_exception_to_500_witness :
    (lambda_handler (.ok ()) (.malformed "not a mapping")).statusCode = 500 ∧
      (lambda_handler (.ok ()) (.malformed "not a mapping")).body.errorField =
        some "not a mapping" :=
  lambda_handler_exception_to_500 (.ok ()) (.malformed "not a mapping")
    "not a mapping" (by rfl)

/-- C8: on the concrete event with `httpMethod = GET`, `path = /ping` and
an empty-object body, the handler returns status 200 and a JSON body
whose `path` field is `/ping`. -/
theorem lambda_handler_ping :
    (lambda_handler (.ok ())
        (.mapping (some "GET") (some "/ping") (some "\x7b\x7d"))).statusCode = 200 ∧
      (lambda_handler (.ok ())
        (.mapping (some "GET") (some "/ping") (some "\x7b\x7d"))).body.pathField =
        some "/ping" := by
  constructor <;> rfl

/-- C10: for every mapping event (any combination of present or absent
fields), with a non-raising logger, the handler returns the full 200
success response: message `Success`, path `event.get(path, /)` and method
`event.get(httpMethod, GET)` — no routing is performed and the 500 branch
is unreachable. -/
theorem lambda_handler_mapping_always_200 (m p b : Option String) :
    lambda_handler (.ok ()) (.mapping m p b) =
      ⟨200,
        [("Content-Type", "application/json"),
         ("Access-Control-Allow-Origin", "*")],
        .successBody "Success" (p.getD "/") (m.getD "GET")⟩ := by
  rfl

/-- The configuration keys `test_configuration` requires. -/
def required_configs : List String :=
  ["DYNAMODB_ENTITY_TABLE", "DYNAMODB_CHAT_TABLE", "COGNITO_REGION",
   "COGNITO_USERPOOL_ID", "OPENAI_API_KEY", "TANK_BASE_URL"]

/-- A loaded configuration: an association of keys to string values. -/
def Config := List (String × String)

/-- One required key is properly set: present in the config, truthy, and
not the placeholder value. -/
def configOk (config : Config) (key : String) : Bool :=
  match List.lookup key config with
  | some v => v != "" && v != "your-secret-key-here"
  | none => false

/-- The `missing` list accumulated by `test_configuration`: the required
keys that are not properly set. -/
def missingConfigs (config : Config) : List String :=
  required_configs.filter (fun k => !(configOk config k))

/-- External outcomes the five smoke-test checks depend on.  Each field is
the result of the corresponding library call, with `Except.error msg`
standing for the call raising an exception with message `msg`:
`cfgLoad` for `load_env_config()`, `appCreate` for `create_app()` in
`test_app_creation`, `routesBody` for creating the app and iterating its
routes in `test_routes`, `controllersInit` for importing and
instantiating the three controllers in `test_controllers`, and
`healthResponse` for creating the app and issuing `GET /ping` (yielding
the status code) in `test_health_endpoint`. -/
structure TestAppEnv where
  cfgLoad : Except String Config
  appCreate : Except String Unit
  routesBody : Except String Unit
  controllersInit : Except String Unit
  healthResponse : Except String Nat

/-- Embedding of `test_configuration` from `test_app.py`: it calls
`load_env_config()` with no `try`, so a raising loader propagates;
otherwise it reports whether no required key is missing. -/
def test_configuration (cfgLoad : Except String Config) : Except String Bool := do
  let config ← cfgLoad
  pure ((missingConfigs config).length == 0)

/-- Embedding of `test_app_creation`: the body is wrapped in
`try`/`except`, so a raising `create_app` yields `False`. -/
def test_app_creation (env : TestAppEnv) : Bool :=
  match env.appCreate with
  | .ok _ => true
  | .error _ => false

/-- Embedding of `test_routes`: the body is wrapped in `try`/`except`, so
any exception yields `False`. -/
def test_routes (env : TestAppEnv) : Bool :=
  match env.routesBody with
  | .ok _ => true
  | .error _ => false

/-- Embedding of `test_controllers`: inside its `try` it calls
`load_env_config()` and instantiates the controllers; any exception of
either step yields `False`. -/
def test_controllers (env : TestAppEnv) : Bool :=
  match (do let _ ← env.cfgLoad; env.controllersInit :
      Except String Unit) with
  | .ok _ => true
  | .error _ => false

/-- Embedding of `test_health_endpoint`: inside its `try` it issues
`GET /ping`; success means status 200, any other status or an exception
yields `False`. -/
def test_health_endpoint (env : TestAppEnv) : Bool :=
  match env.healthResponse with
  | .ok status => status == 200
  | .error _ => false

/-- The summary printed by the harness and the resulting process exit
status. -/
structure TestSummary where
  passed : Nat
  total : Nat
  exitCode : Nat
deriving DecidableEq, Repr

/-- The five check results in the order `main` runs them, given the
configuration the loader returned. -/
def checkResults (env : TestAppEnv) (config : Config) : List Bool :=
  [(missingConfigs config).length == 0,
   test_app_creation env, test_routes env,
   test_controllers env, test_health_endpoint env]

/-- Embedding of `main` from `test_app.py`: run the five checks in order
— `test_configuration` is not failure-isolated, so its exception aborts
`main` (`Except.error`, no summary, process dies with a traceback) —
then report `passed/total` and exit with `1` via `sys.exit(1)` when any
check failed, `0` otherwise. -/
def testAppMain (env : TestAppEnv) : Except String TestSummary := do
  let configuration_result ← test_configuration env.cfgLoad
  let results := [configuration_result,
                  test_app_creation env, test_routes env,
                  test_controllers env, test_health_endpoint env]
  let passed := results.count true
  let total := results.length
  pure ⟨passed, total, if passed == total then 0 else 1⟩

/-- C5 counterexample: when the config loader raises, the exception
escapes `test_configuration` and aborts the harness — the remaining four
checks never run and no aggregate summary is produced, refuting the claim
that every one of the five checks is failure-isolated. -/
theorem testAppMain_aborts_on_config_exception :
    testAppMain ⟨.error "boom", .ok (), .ok (), .ok (), .ok 200⟩ =
      .error "boom" := by
  rfl

/-- C5 (amended): only the four checks other than the configuration check
are failure-isolated: whenever `load_env_config()` itself returns
(regardless of whether the bodies of the other four checks raise), every
check runs, a raising body merely makes its check report failure, and the
aggregate summary is produced; an exception from the config loader,
however, propagates out of the configuration check and aborts the
suite. -/
theorem testAppMain_isolates_other_four (env : TestAppEnv) (config : Config)
    (h : env.cfgLoad = .ok config) :
    testAppMain env =
      .ok ⟨(checkResults env config).count true, 5,
        if (checkResults env config).count true == 5 then 0 else 1⟩ := by
  simp [testAppMain, test_configuration, checkResults, h, List.count, Except.bind]

/-- C5 witness: with the loader succeeding on an empty config and every
other check body raising, the harness still completes with a 1/5
summary and exit code 1. -/
theorem testAppMain_isolates_other_four_witness :
    testAppMain ⟨.ok [], .error "a", .error "b", .error "c", .error "d"⟩ =
      .ok ⟨0, 5, 1⟩ := by
  have h := testAppMain_isolates_other_four
    ⟨.ok [], .error "a", .error "b", .error "c", .error "d"⟩ [] rfl
  simpa using h

/-- For a vector of five boolean check results, the exit code computed by
the harness is 0 exactly when all five are `true`, and 1 when any is
`false`. -/
theorem exit_code_five_checks (a b c d e : Bool) :
    ((if (List.count true [a, b, c, d, e] == 5) = true then 0 else 1) = 0 ↔
        List.all [a, b, c, d, e] id = true) ∧
      (List.all [a, b, c, d, e] id = false →
        (if (List.count true [a, b, c, d, e] == 5) = true then 0 else 1) = 1) := by
  cases a <;> cases b <;> cases c <;> cases d <;> cases e <;> decide

/-- C6: whenever the harness completes (the configuration check did not
abort it), it reports exactly the number of passing checks out of 5, and
the exit status is 0 if and only if all five checks returned success;
when any check fails the harness exits via `sys.exit(1)` with status
1. -/
theorem testAppMain_count_and_exit (env : TestAppEnv) (config : Config)
    (h : env.cfgLoad = .ok config) :
    ∃ s, testAppMain env = .ok s ∧
      s.total = 5 ∧
      s.passed = (checkResults env config).count true ∧
      (s.exitCode = 0 ↔ (checkResults env config).all id = true) ∧
      ((checkResults env config).all id = false → s.exitCode = 1) := by
  refine ⟨⟨(checkResults env config).count true, 5,
      if (checkResults env config).count true == 5 then 0 else 1⟩,
    ?_, rfl, rfl, ?_, ?_⟩
  · simp [testAppMain, test_configuration, checkResults, h, List.count,
      Except.bind]
  · exact (exit_code_five_checks _ _ _ _ _).1
  · exact (exit_code_five_checks _ _ _ _ _).2

/-- C6 witness: with a loader returning an empty config (so the
configuration check fails) and the other four checks succeeding, the
harness reports 4/5 and exits with status 1. -/
theorem testAppMain_count_and_exit_witness :
    ∃ s, testAppMain ⟨.ok [], .ok (), .ok (), .ok (), .ok 200⟩ = .ok s ∧
      s.total = 5 ∧
      s.passed = (checkResults ⟨.ok [], .ok (), .ok (), .ok (), .ok 200⟩ []).count true ∧
      (s.exitCode = 0 ↔
        (checkResults ⟨.ok [], .ok (), .ok (), .ok (), .ok 200⟩ []).all id = true) ∧
      ((checkResults ⟨.ok [], .ok (), .ok (), .ok (), .ok 200⟩ []).all id = false →
        s.exitCode = 1) :=
  testAppMain_count_and_exit ⟨.ok [], .ok (), .ok (), .ok (), .ok 200⟩ [] rfl
